import Mathlib

/-
Verification of the iproute2 dpll command-line tool (src/dpll/dpll.c,
libmnl variant) against its natural-language specification.

The development shallowly embeds the parts of dpll.c that the claims are
about: the enum codecs, the token cursor, the per-verb argument loops,
the multi-attribute count/collect passes, the signed-field wire decoding
and the renderers.  Machine integers are modelled as Nat/Int; netlink
attributes as a type tag plus a byte-list payload; the output sink as a
list of abstract events.
-/

namespace Dpll

/-! ## Enum codes

Numeric codes follow the kernel uapi header `linux/dpll.h`, which dpll.c
includes; the header is not part of this repository's sources, but the
codes are fixed by the kernel interface (spec section 6.2). -/

def DPLL_MODE_MANUAL : Nat := 1
def DPLL_MODE_AUTOMATIC : Nat := 2

def DPLL_LOCK_STATUS_UNLOCKED : Nat := 1
def DPLL_LOCK_STATUS_LOCKED : Nat := 2
def DPLL_LOCK_STATUS_LOCKED_HO_ACQ : Nat := 3
def DPLL_LOCK_STATUS_HOLDOVER : Nat := 4

def DPLL_LOCK_STATUS_ERROR_NONE : Nat := 1
def DPLL_LOCK_STATUS_ERROR_UNDEFINED : Nat := 2
def DPLL_LOCK_STATUS_ERROR_MEDIA_DOWN : Nat := 3
def DPLL_LOCK_STATUS_ERROR_FRACTIONAL_FREQUENCY_OFFSET_TOO_HIGH : Nat := 4

def DPLL_TYPE_PPS : Nat := 1
def DPLL_TYPE_EEC : Nat := 2

def DPLL_PIN_TYPE_MUX : Nat := 1
def DPLL_PIN_TYPE_EXT : Nat := 2
def DPLL_PIN_TYPE_SYNCE_ETH_PORT : Nat := 3
def DPLL_PIN_TYPE_INT_OSCILLATOR : Nat := 4
def DPLL_PIN_TYPE_GNSS : Nat := 5

def DPLL_PIN_DIRECTION_INPUT : Nat := 1
def DPLL_PIN_DIRECTION_OUTPUT : Nat := 2

def DPLL_PIN_STATE_CONNECTED : Nat := 1
def DPLL_PIN_STATE_DISCONNECTED : Nat := 2
def DPLL_PIN_STATE_SELECTABLE : Nat := 3

def DPLL_CLOCK_QUALITY_LEVEL_ITU_OPT1_PRC : Nat := 1
def DPLL_CLOCK_QUALITY_LEVEL_ITU_OPT1_SSU_A : Nat := 2
def DPLL_CLOCK_QUALITY_LEVEL_ITU_OPT1_SSU_B : Nat := 3
def DPLL_CLOCK_QUALITY_LEVEL_ITU_OPT1_EEC1 : Nat := 4
def DPLL_CLOCK_QUALITY_LEVEL_ITU_OPT1_PRTC : Nat := 5
def DPLL_CLOCK_QUALITY_LEVEL_ITU_OPT1_EPRTC : Nat := 6
def DPLL_CLOCK_QUALITY_LEVEL_ITU_OPT1_EEEC : Nat := 7
def DPLL_CLOCK_QUALITY_LEVEL_ITU_OPT1_EPRC : Nat := 8

/-! ## Enum decoders (the `*_name` switch tables of dpll.c) -/

/-- `dpll_mode_name` from dpll.c. -/
def dpll_mode_name (mode : Nat) : String :=
  if mode = DPLL_MODE_MANUAL then "manual"
  else if mode = DPLL_MODE_AUTOMATIC then "automatic"
  else "unknown"

/-- `dpll_lock_status_name` from dpll.c. -/
def dpll_lock_status_name (status : Nat) : String :=
  if status = DPLL_LOCK_STATUS_UNLOCKED then "unlocked"
  else if status = DPLL_LOCK_STATUS_LOCKED then "locked"
  else if status = DPLL_LOCK_STATUS_LOCKED_HO_ACQ then "locked-ho-acq"
  else if status = DPLL_LOCK_STATUS_HOLDOVER then "holdover"
  else "unknown"

/-- `dpll_type_name` from dpll.c. -/
def dpll_type_name (ty : Nat) : String :=
  if ty = DPLL_TYPE_PPS then "pps"
  else if ty = DPLL_TYPE_EEC then "eec"
  else "unknown"

/-- `dpll_lock_status_error_name` from dpll.c. -/
def dpll_lock_status_error_name (error : Nat) : String :=
  if error = DPLL_LOCK_STATUS_ERROR_NONE then "none"
  else if error = DPLL_LOCK_STATUS_ERROR_UNDEFINED then "undefined"
  else if error = DPLL_LOCK_STATUS_ERROR_MEDIA_DOWN then "media-down"
  else if error = DPLL_LOCK_STATUS_ERROR_FRACTIONAL_FREQUENCY_OFFSET_TOO_HIGH then
    "fractional-frequency-offset-too-high"
  else "unknown"

/-- `dpll_clock_quality_level_name` from dpll.c. -/
def dpll_clock_quality_level_name (level : Nat) : String :=
  if level = DPLL_CLOCK_QUALITY_LEVEL_ITU_OPT1_PRC then "itu-opt1-prc"
  else if level = DPLL_CLOCK_QUALITY_LEVEL_ITU_OPT1_SSU_A then "itu-opt1-ssu-a"
  else if level = DPLL_CLOCK_QUALITY_LEVEL_ITU_OPT1_SSU_B then "itu-opt1-ssu-b"
  else if level = DPLL_CLOCK_QUALITY_LEVEL_ITU_OPT1_EEC1 then "itu-opt1-eec1"
  else if level = DPLL_CLOCK_QUALITY_LEVEL_ITU_OPT1_PRTC then "itu-opt1-prtc"
  else if level = DPLL_CLOCK_QUALITY_LEVEL_ITU_OPT1_EPRTC then "itu-opt1-eprtc"
  else if level = DPLL_CLOCK_QUALITY_LEVEL_ITU_OPT1_EEEC then "itu-opt1-eeec"
  else if level = DPLL_CLOCK_QUALITY_LEVEL_ITU_OPT1_EPRC then "itu-opt1-eprc"
  else "unknown"

/-- `dpll_pin_type_name` from dpll.c. -/
def dpll_pin_type_name (ty : Nat) : String :=
  if ty = DPLL_PIN_TYPE_MUX then "mux"
  else if ty = DPLL_PIN_TYPE_EXT then "ext"
  else if ty = DPLL_PIN_TYPE_SYNCE_ETH_PORT then "synce-eth-port"
  else if ty = DPLL_PIN_TYPE_INT_OSCILLATOR then "int-oscillator"
  else if ty = DPLL_PIN_TYPE_GNSS then "gnss"
  else "unknown"

/-- `dpll_pin_state_name` from dpll.c. -/
def dpll_pin_state_name (state : Nat) : String :=
  if state = DPLL_PIN_STATE_CONNECTED then "connected"
  else if state = DPLL_PIN_STATE_DISCONNECTED then "disconnected"
  else if state = DPLL_PIN_STATE_SELECTABLE then "selectable"
  else "unknown"

/-- `dpll_pin_direction_name` from dpll.c. -/
def dpll_pin_direction_name (direction : Nat) : String :=
  if direction = DPLL_PIN_DIRECTION_INPUT then "input"
  else if direction = DPLL_PIN_DIRECTION_OUTPUT then "output"
  else "unknown"

/-! ## Enum encoders

`dpll_parse_state` and `dpll_parse_direction` are helper functions of
dpll.c; the device-type and pin-type encoders are written inline in
`cmd_device_id_get` and `cmd_pin_id_get`.  `none` models the `-EINVAL`
error return. -/

/-- `dpll_parse_state` from dpll.c, applied to the current token. -/
def dpll_parse_state (tok : String) : Option Nat :=
  if tok = "connected" then some DPLL_PIN_STATE_CONNECTED
  else if tok = "disconnected" then some DPLL_PIN_STATE_DISCONNECTED
  else if tok = "selectable" then some DPLL_PIN_STATE_SELECTABLE
  else none

/-- `dpll_parse_direction` from dpll.c, applied to the current token. -/
def dpll_parse_direction (tok : String) : Option Nat :=
  if tok = "input" then some DPLL_PIN_DIRECTION_INPUT
  else if tok = "output" then some DPLL_PIN_DIRECTION_OUTPUT
  else none

/-- The device-type encoder written inline in `cmd_device_id_get` of dpll.c. -/
def dpll_parse_type (tok : String) : Option Nat :=
  if tok = "pps" then some DPLL_TYPE_PPS
  else if tok = "eec" then some DPLL_TYPE_EEC
  else none

/-- The pin-type encoder written inline in `cmd_pin_id_get` of dpll.c. -/
def dpll_parse_pin_type (tok : String) : Option Nat :=
  if tok = "mux" then some DPLL_PIN_TYPE_MUX
  else if tok = "ext" then some DPLL_PIN_TYPE_EXT
  else if tok = "synce-eth-port" then some DPLL_PIN_TYPE_SYNCE_ETH_PORT
  else if tok = "int-oscillator" then some DPLL_PIN_TYPE_INT_OSCILLATOR
  else if tok = "gnss" then some DPLL_PIN_TYPE_GNSS
  else none

/-- Modelled from the spec: section 4.7 requires a strict `encode` for every
enum in the schema, but dpll.c never parses a mode from the command line, so
no source encoder exists; this is the strict inverse of the label table of
`dpll_mode_name`. -/
def dpll_encode_mode (label : String) : Option Nat :=
  if label = "manual" then some DPLL_MODE_MANUAL
  else if label = "automatic" then some DPLL_MODE_AUTOMATIC
  else none

/-- Modelled from the spec: strict encoder for the lock-status enum (spec
section 4.7); dpll.c has no source encoder, this inverts the label table of
`dpll_lock_status_name`. -/
def dpll_encode_lock_status (label : String) : Option Nat :=
  if label = "unlocked" then some DPLL_LOCK_STATUS_UNLOCKED
  else if label = "locked" then some DPLL_LOCK_STATUS_LOCKED
  else if label = "locked-ho-acq" then some DPLL_LOCK_STATUS_LOCKED_HO_ACQ
  else if label = "holdover" then some DPLL_LOCK_STATUS_HOLDOVER
  else none

/-- Modelled from the spec: strict encoder for the lock-status-error enum
(spec section 4.7); inverts the label table of `dpll_lock_status_error_name`. -/
def dpll_encode_lock_status_error (label : String) : Option Nat :=
  if label = "none" then some DPLL_LOCK_STATUS_ERROR_NONE
  else if label = "undefined" then some DPLL_LOCK_STATUS_ERROR_UNDEFINED
  else if label = "media-down" then some DPLL_LOCK_STATUS_ERROR_MEDIA_DOWN
  else if label = "fractional-frequency-offset-too-high" then
    some DPLL_LOCK_STATUS_ERROR_FRACTIONAL_FREQUENCY_OFFSET_TOO_HIGH
  else none

/-- Modelled from the spec: strict encoder for the clock-quality-level enum
(spec section 4.7); inverts the label table of `dpll_clock_quality_level_name`. -/
def dpll_encode_clock_quality_level (label : String) : Option Nat :=
  if label = "itu-opt1-prc" then some DPLL_CLOCK_QUALITY_LEVEL_ITU_OPT1_PRC
  else if label = "itu-opt1-ssu-a" then some DPLL_CLOCK_QUALITY_LEVEL_ITU_OPT1_SSU_A
  else if label = "itu-opt1-ssu-b" then some DPLL_CLOCK_QUALITY_LEVEL_ITU_OPT1_SSU_B
  else if label = "itu-opt1-eec1" then some DPLL_CLOCK_QUALITY_LEVEL_ITU_OPT1_EEC1
  else if label = "itu-opt1-prtc" then some DPLL_CLOCK_QUALITY_LEVEL_ITU_OPT1_PRTC
  else if label = "itu-opt1-eprtc" then some DPLL_CLOCK_QUALITY_LEVEL_ITU_OPT1_EPRTC
  else if label = "itu-opt1-eeec" then some DPLL_CLOCK_QUALITY_LEVEL_ITU_OPT1_EEEC
  else if label = "itu-opt1-eprc" then some DPLL_CLOCK_QUALITY_LEVEL_ITU_OPT1_EPRC
  else none

/-- Both round-trip directions of one enum codec over its declared codes and
labels: `encode (decode c) = c` for every declared code and
`decode (encode l) = l` for every declared label. -/
def enumRoundTripOk (decode : Nat → String) (encode : String → Option Nat)
    (codes : List Nat) (labels : List String) : Bool :=
  (codes.all fun c => encode (decode c) == some c) &&
  (labels.all fun l => ((encode l).map decode) == some l)

/-- C5: for every enum of the schema — pin state, pin direction, device type,
pin type, mode, lock status, lock-status error, clock quality level — decoding
the code obtained by encoding any declared label yields the label again, and
encoding the label obtained by decoding any declared (in-range) code yields
the code again. -/
theorem enum_label_roundtrip :
    enumRoundTripOk dpll_pin_state_name dpll_parse_state
      [1, 2, 3] ["connected", "disconnected", "selectable"] = true ∧
    enumRoundTripOk dpll_pin_direction_name dpll_parse_direction
      [1, 2] ["input", "output"] = true ∧
    enumRoundTripOk dpll_type_name dpll_parse_type
      [1, 2] ["pps", "eec"] = true ∧
    enumRoundTripOk dpll_pin_type_name dpll_parse_pin_type
      [1, 2, 3, 4, 5] ["mux", "ext", "synce-eth-port", "int-oscillator", "gnss"] = true ∧
    enumRoundTripOk dpll_mode_name dpll_encode_mode
      [1, 2] ["manual", "automatic"] = true ∧
    enumRoundTripOk dpll_lock_status_name dpll_encode_lock_status
      [1, 2, 3, 4] ["unlocked", "locked", "locked-ho-acq", "holdover"] = true ∧
    enumRoundTripOk dpll_lock_status_error_name dpll_encode_lock_status_error
      [1, 2, 3, 4]
      ["none", "undefined", "media-down", "fractional-frequency-offset-too-high"] = true ∧
    enumRoundTripOk dpll_clock_quality_level_name dpll_encode_clock_quality_level
      [1, 2, 3, 4, 5, 6, 7, 8]
      ["itu-opt1-prc", "itu-opt1-ssu-a", "itu-opt1-ssu-b", "itu-opt1-eec1",
       "itu-opt1-prtc", "itu-opt1-eprtc", "itu-opt1-eeec", "itu-opt1-eprc"] = true := by
  decide

/-! ## Token cursor

The argument cursor of dpll.c: a C `int argc` together with the remaining
suffix of the argument vector (the `argv` pointer).  `argc` is kept as an
`Int` exactly as in the source so that non-negativity is a theorem, not a
typing artefact. -/

structure DpllCursor where
  argc : Int
  args : List String
deriving DecidableEq

/-- A cursor as `main` constructs it: `argc` equals the number of remaining
arguments. -/
def cursorWf (d : DpllCursor) : Prop := d.argc = d.args.length

/-- `dpll_argc` from dpll.c. -/
def dpll_argc (d : DpllCursor) : Int := d.argc

/-- `dpll_argv` from dpll.c: peek at the head token, `NULL` when empty. -/
def dpll_argv (d : DpllCursor) : Option String :=
  if d.argc = 0 then none else d.args.head?

/-- `dpll_arg_inc` from dpll.c: advance, a no-op on an empty cursor. -/
def dpll_arg_inc (d : DpllCursor) : DpllCursor :=
  if d.argc = 0 then d else { argc := d.argc - 1, args := d.args.tail }

/-- `dpll_argv_next` from dpll.c: skip the keyword, then return the value
token (or `NULL`) and skip it. -/
def dpll_argv_next (d : DpllCursor) : Option String × DpllCursor :=
  if (dpll_arg_inc d).argc = 0 then (none, dpll_arg_inc d)
  else ((dpll_arg_inc d).args.head?, dpll_arg_inc (dpll_arg_inc d))

/-- `dpll_argv_match` from dpll.c: compare the head token, false when empty. -/
def dpll_argv_match (d : DpllCursor) (pat : String) : Bool :=
  if d.argc = 0 then false else d.args.head? == some pat

/-- `dpll_no_arg` from dpll.c. -/
def dpll_no_arg (d : DpllCursor) : Bool := d.argc == 0

/-- `dpll_argv_match_inc` from dpll.c: match and consume on success. -/
def dpll_argv_match_inc (d : DpllCursor) (pat : String) : Bool × DpllCursor :=
  if dpll_argv_match d pat then (true, dpll_arg_inc d) else (false, d)

/-- One cursor operation, as performed by the argument loops. -/
inductive CursorOp where
  | inc
  | next
  | matchKw (pat : String)

/-- The cursor after one operation (only the state change matters here). -/
def cursorStep (d : DpllCursor) (op : CursorOp) : DpllCursor :=
  match op with
  | .inc => dpll_arg_inc d
  | .next => (dpll_argv_next d).2
  | .matchKw p => (dpll_argv_match_inc d p).2

/-- The cursor after a sequence of operations. -/
def cursorRun (d : DpllCursor) (ops : List CursorOp) : DpllCursor :=
  ops.foldl cursorStep d

theorem dpll_arg_inc_wf (d : DpllCursor) (h : cursorWf d) :
    cursorWf (dpll_arg_inc d) := by
  unfold cursorWf at h ⊢
  unfold dpll_arg_inc
  split
  · exact h
  · rename_i hne
    cases hd : d.args with
    | nil => rw [hd] at h; simp at h; exact absurd h hne
    | cons a as =>
      rw [hd] at h
      simp only [List.length_cons] at h
      simp only [hd, List.tail_cons]
      omega

theorem cursorStep_wf (d : DpllCursor) (op : CursorOp) (h : cursorWf d) :
    cursorWf (cursorStep d op) := by
  cases op with
  | inc => exact dpll_arg_inc_wf d h
  | next =>
    show cursorWf (dpll_argv_next d).2
    unfold dpll_argv_next
    have h1 := dpll_arg_inc_wf d h
    split
    · exact h1
    · exact dpll_arg_inc_wf _ h1
  | matchKw p =>
    show cursorWf (dpll_argv_match_inc d p).2
    unfold dpll_argv_match_inc
    split
    · exact dpll_arg_inc_wf d h
    · exact h

theorem cursorRun_wf (d : DpllCursor) (ops : List CursorOp) (h : cursorWf d) :
    cursorWf (cursorRun d ops) := by
  induction ops generalizing d with
  | nil => exact h
  | cons op ops ih => exact ih (cursorStep d op) (cursorStep_wf d op h)

/-- C9: token-cursor safety.  Starting from any well-formed cursor, no
sequence of cursor operations drives the remaining-count negative; advancing
an empty cursor leaves it unchanged; and peek, take and match on an empty
cursor return `none` (respectively `false`) instead of reading past the
vector. -/
theorem cursor_safety (d : DpllCursor) (h : cursorWf d) :
    (∀ ops : List CursorOp, 0 ≤ (cursorRun d ops).argc) ∧
    (d.argc = 0 → dpll_arg_inc d = d) ∧
    (d.argc = 0 →
      dpll_argv d = none ∧ (dpll_argv_next d).1 = none ∧
      ∀ pat, dpll_argv_match d pat = false) := by
  refine ⟨?_, ?_, ?_⟩
  · intro ops
    have hw := cursorRun_wf d ops h
    unfold cursorWf at hw
    rw [hw]
    exact Int.ofNat_nonneg _
  · intro h0
    unfold dpll_arg_inc
    simp [h0]
  · intro h0
    have hinc : dpll_arg_inc d = d := by unfold dpll_arg_inc; simp [h0]
    refine ⟨?_, ?_, ?_⟩
    · unfold dpll_argv; simp [h0]
    · unfold dpll_argv_next
      simp [hinc, h0]
    · intro pat
      unfold dpll_argv_match; simp [h0]

/-- Witness for C9 at the empty cursor. -/
theorem cursor_safety_witness :
    0 ≤ (cursorRun ⟨0, []⟩ [CursorOp.inc, CursorOp.next, CursorOp.matchKw "id"]).argc ∧
    dpll_arg_inc ⟨0, []⟩ = ⟨0, []⟩ ∧
    dpll_argv ⟨0, []⟩ = none := by
  have h := cursor_safety ⟨0, []⟩ (by simp [cursorWf])
  exact ⟨h.1 _, h.2.1 rfl, (h.2.2 rfl).1⟩

/-! ## Transport pre-check (C4) -/

/-- The `need_nl` computation of `main` in dpll.c: transport initialisation
is skipped exactly when this is false. -/
def need_nl (args : List String) : Bool :=
  let b1 := if args.length > 0 ∧ args[0]? = some "help" then false else true
  if args.length > 1 ∧ args[1]? = some "help" then false else b1

/-- C4 counterexample: with an empty (post-option) token stream the code
still attempts the netlink socket initialisation (`need_nl` stays true),
although the claim says the transport open is skipped for the empty stream. -/
theorem need_nl_empty_counterexample : need_nl [] = true := by decide

/-- C4 (amended): transport initialisation is skipped exactly when the first
token is `help` or the second token is `help`; the empty token stream does
attempt the transport open. -/
theorem help_offline_iff (args : List String) :
    need_nl args = false ↔ (args[0]? = some "help" ∨ args[1]? = some "help") := by
  unfold need_nl
  cases args with
  | nil => simp
  | cons a rest =>
    cases rest with
    | nil => simp
    | cons b rest2 => simp; tauto

/-! ## Temperature rendering (C6) -/

/-- Three-digit zero-padded decimal, the `%03d` of the C format string. -/
def pad3 (n : Nat) : String :=
  if n < 10 then "00" ++ toString n
  else if n < 100 then "0" ++ toString n
  else toString n

/-- The plain-text temperature renderer of `dpll_device_print_attrs`:
`temp_int = temp / 1000` (C division truncates toward zero),
`temp_frac = abs(temp % 1000)` (C remainder has the dividend's sign),
printed with `"  temperature: %d.%03d C"`. -/
def temp_render (temp : Int) : String :=
  let temp_int := Int.tdiv temp 1000
  let temp_frac := (Int.tmod temp 1000).natAbs
  "  temperature: " ++ toString temp_int ++ "." ++ pad3 temp_frac ++ " C"

/-- The rendering the claim describes: the exact decimal value of T/1000,
sign included. -/
def temp_render_spec (temp : Int) : String :=
  let sign := if temp < 0 then "-" else ""
  "  temperature: " ++ sign ++ toString (temp.natAbs / 1000) ++ "." ++
    pad3 (temp.natAbs % 1000) ++ " C"

/-- C6: at T = -500 milli-degrees the plain-text renderer prints `0.500 C`,
dropping the sign, while the exact decimal of T/1000 is `-0.500`; the printed
value does not equal T/1000 for any T strictly between -1000 and 0. -/
theorem temp_render_neg_mismatch :
    temp_render (-500) = "  temperature: 0.500 C" ∧
    temp_render_spec (-500) = "  temperature: -0.500 C" ∧
    temp_render (-500) ≠ temp_render_spec (-500) := by
  refine ⟨?_, ?_, ?_⟩ <;> decide

/-! ## Netlink attributes and the multi-attribute aggregator -/

/-- One top-level netlink attribute: type tag and byte payload. -/
structure NlAttr where
  typ : Nat
  payload : List Nat
deriving DecidableEq

/-- The top-level occurrences of one attribute type, in wire order. -/
def wireOccurrences (msg : List NlAttr) (t : Nat) : List NlAttr :=
  msg.filter (fun a => a.typ == t)

/-- The body of `count_multi_attr_cb` from dpll.c, applied to one attribute. -/
def count_multi_attr_cb (attrType : Nat) (count : Nat) (attr : NlAttr) : Nat :=
  if attr.typ = attrType then count + 1 else count

/-- `multi_attr_count_get` from dpll.c: walk every top-level attribute and
count those of the given type. -/
def multi_attr_count_get (msg : List NlAttr) (attrType : Nat) : Nat :=
  msg.foldl (count_multi_attr_cb attrType) 0

/-- `struct multi_attr_ctx` from dpll.c: insertion count plus collected
entries (the C code writes `entries[count++]`, modelled by appending). -/
structure MultiAttrCtx where
  count : Nat
  entries : List NlAttr
deriving DecidableEq

/-- The body of `collect_multi_attr_cb` from dpll.c, applied to one
attribute. -/
def collect_multi_attr_cb (attrType : Nat) (ctx : MultiAttrCtx) (attr : NlAttr) :
    MultiAttrCtx :=
  if attr.typ = attrType then
    { count := ctx.count + 1, entries := ctx.entries ++ [attr] }
  else ctx

/-- The collect pass of `cmd_pin_show_cb`: walk the message again filling the
pre-allocated context. -/
def collect_multi_attr (msg : List NlAttr) (attrType : Nat) : MultiAttrCtx :=
  msg.foldl (collect_multi_attr_cb attrType) ⟨0, []⟩

theorem count_foldl_eq (t : Nat) (msg : List NlAttr) (n : Nat) :
    msg.foldl (count_multi_attr_cb t) n = n + (wireOccurrences msg t).length := by
  induction msg generalizing n with
  | nil => simp [wireOccurrences]
  | cons a rest ih =>
    rw [List.foldl_cons]
    by_cases h : a.typ = t
    · rw [show count_multi_attr_cb t n a = n + 1 by
        unfold count_multi_attr_cb; simp [h]]
      rw [ih]
      simp [wireOccurrences, List.filter_cons, h]
      omega
    · rw [show count_multi_attr_cb t n a = n by
        unfold count_multi_attr_cb; simp [h]]
      rw [ih]
      have hb : (a.typ == t) = false := by simp [h]
      simp [wireOccurrences, List.filter_cons, hb]

theorem collect_foldl_eq (t : Nat) (msg : List NlAttr) (ctx : MultiAttrCtx) :
    (msg.foldl (collect_multi_attr_cb t) ctx).entries
      = ctx.entries ++ wireOccurrences msg t ∧
    (msg.foldl (collect_multi_attr_cb t) ctx).count
      = ctx.count + (wireOccurrences msg t).length := by
  induction msg generalizing ctx with
  | nil => simp [wireOccurrences]
  | cons a rest ih =>
    rw [List.foldl_cons]
    by_cases h : a.typ = t
    · rw [show collect_multi_attr_cb t ctx a
          = ⟨ctx.count + 1, ctx.entries ++ [a]⟩ by
        unfold collect_multi_attr_cb; simp [h]]
      have hih := ih ⟨ctx.count + 1, ctx.entries ++ [a]⟩
      constructor
      · rw [hih.1]; simp [wireOccurrences, List.filter_cons, h]
      · rw [hih.2]; simp [wireOccurrences, List.filter_cons, h]; omega
    · rw [show collect_multi_attr_cb t ctx a = ctx by
        unfold collect_multi_attr_cb; simp [h]]
      have hb : (a.typ == t) = false := by simp [h]
      simpa [wireOccurrences, List.filter_cons, hb] using ih ctx

/-- C3: for a reply message with N top-level occurrences of a
multi-cardinality attribute type, the count pass computes exactly N, the
collect pass fills the sequence with exactly N entries, and the entries are
the occurrences in wire order (so the i-th entry is the i-th occurrence). -/
theorem multi_attr_faithful (msg : List NlAttr) (t : Nat) :
    multi_attr_count_get msg t = (wireOccurrences msg t).length ∧
    (collect_multi_attr msg t).entries = wireOccurrences msg t ∧
    (collect_multi_attr msg t).count = (wireOccurrences msg t).length := by
  refine ⟨?_, ?_, ?_⟩
  · unfold multi_attr_count_get
    rw [count_foldl_eq]
    simp
  · unfold collect_multi_attr
    rw [(collect_foldl_eq t msg ⟨0, []⟩).1]
    simp
  · unfold collect_multi_attr
    rw [(collect_foldl_eq t msg ⟨0, []⟩).2]
    simp

/-! ## Output events and the zero-occurrence case (C10) -/

/-- One event sent to the output sink. -/
inductive OutEv where
  | openArr (name : String)
  | closeArr
  | jsonStr (s : String)
  | text (s : String)
deriving DecidableEq

/-- `mnl_attr_get_u32`: little-endian assembly of the first four payload
bytes. -/
def mnl_attr_get_u32 (payload : List Nat) : Nat :=
  (payload.take 4).foldr (fun b acc => b % 256 + 256 * acc) 0

/-- The loop state of `DPLL_PR_MULTI_ENUM_STR`: the `__first` flag plus the
output emitted so far. -/
structure MultiPrState where
  first : Bool
  out : List OutEv
deriving DecidableEq

/-- One iteration of the `mnl_attr_for_each` loop in
`DPLL_PR_MULTI_ENUM_STR`. -/
def pr_multi_enum_step (json : Bool) (attrId : Nat) (name : String)
    (nameFunc : Nat → String) (st : MultiPrState) (attr : NlAttr) : MultiPrState :=
  if attr.typ = attrId then
    let hdr : List OutEv :=
      if st.first then
        [if json then OutEv.openArr name else OutEv.text ("  " ++ name ++ ":")]
      else []
    let item : OutEv :=
      if json then OutEv.jsonStr (nameFunc (mnl_attr_get_u32 attr.payload))
      else OutEv.text (" " ++ nameFunc (mnl_attr_get_u32 attr.payload))
    { first := false, out := st.out ++ hdr ++ [item] }
  else st

/-- `DPLL_PR_MULTI_ENUM_STR` from dpll.c: emit a header (text) or open an
array (JSON) before the first matching attribute, one item per occurrence,
and a closing newline or array close only if anything was emitted. -/
def dpll_pr_multi_enum_str (json : Bool) (msg : List NlAttr) (attrId : Nat)
    (name : String) (nameFunc : Nat → String) : List OutEv :=
  let st := msg.foldl (pr_multi_enum_step json attrId name nameFunc) ⟨true, []⟩
  if st.first then st.out
  else st.out ++ [if json then OutEv.closeArr else OutEv.text "\n"]

/-- The slot substitution of `cmd_pin_show_cb`: the attribute-table entry for
a multi attribute is the collected context when the count is positive and
`NULL` otherwise. -/
def pin_multi_slot (msg : List NlAttr) (t : Nat) : Option MultiAttrCtx :=
  let ctx := collect_multi_attr msg t
  if ctx.count > 0 then some ctx else none

/-- The rendering branch of `dpll_pin_print_attrs` for one multi attribute:
`if (tb[...])` guards the whole block, so a `none` slot emits nothing;
otherwise the array scope is opened, every entry rendered, and the scope
closed. -/
def render_pin_multi (json : Bool) (name : String)
    (renderEntry : NlAttr → List OutEv) (slot : Option MultiAttrCtx) : List OutEv :=
  match slot with
  | none => []
  | some ctx =>
    (if json then [OutEv.openArr name] else [OutEv.text ("  " ++ name ++ ":\n")])
      ++ ctx.entries.foldl (fun acc e => acc ++ renderEntry e) []
      ++ (if json then [OutEv.closeArr] else [])

theorem pr_multi_enum_no_match (json : Bool) (attrId : Nat) (name : String)
    (nameFunc : Nat → String) (msg : List NlAttr)
    (hall : ∀ a ∈ msg, a.typ ≠ attrId) (st : MultiPrState) :
    msg.foldl (pr_multi_enum_step json attrId name nameFunc) st = st := by
  induction msg generalizing st with
  | nil => rfl
  | cons a rest ih =>
    simp only [List.foldl_cons]
    have ha : a.typ ≠ attrId := hall a (List.mem_cons_self a rest)
    rw [show pr_multi_enum_step json attrId name nameFunc st a = st by
      unfold pr_multi_enum_step; simp [ha]]
    exact ih (fun b hb => hall b (List.mem_cons_of_mem a hb)) st

/-- C10: when a multi-cardinality attribute occurs zero times in a decoded
message, the renderer emits nothing for it: the multi-enum printer produces
no events (no header, no array), the attribute-table slot is left `none`,
and the nested-record rendering branch is skipped entirely. -/
theorem multi_attr_zero_silent (json : Bool) (msg : List NlAttr) (t : Nat)
    (name : String) (nameFunc : Nat → String) (renderEntry : NlAttr → List OutEv)
    (h : multi_attr_count_get msg t = 0) :
    dpll_pr_multi_enum_str json msg t name nameFunc = [] ∧
    pin_multi_slot msg t = none ∧
    render_pin_multi json name renderEntry (pin_multi_slot msg t) = [] := by
  have hlen : (wireOccurrences msg t).length = 0 := by
    have hc : multi_attr_count_get msg t = (wireOccurrences msg t).length := by
      unfold multi_attr_count_get
      rw [count_foldl_eq]
      simp
    rw [← hc]
    exact h
  have hnil : wireOccurrences msg t = [] := List.length_eq_zero.mp hlen
  have hall : ∀ a ∈ msg, a.typ ≠ t := by
    intro a ha
    have hfa := List.filter_eq_nil_iff.mp hnil a ha
    simpa using hfa
  have hslot : pin_multi_slot msg t = none := by
    unfold pin_multi_slot
    have hc : (collect_multi_attr msg t).count = 0 := by
      unfold collect_multi_attr
      rw [(collect_foldl_eq t msg ⟨0, []⟩).2]
      simp [hlen]
    simp [hc]
  refine ⟨?_, hslot, ?_⟩
  · unfold dpll_pr_multi_enum_str
    rw [pr_multi_enum_no_match json t name nameFunc msg hall ⟨true, []⟩]
    simp
  · rw [hslot]
    rfl

/-- Witness for C10 on a concrete message with no attribute of type 3. -/
theorem multi_attr_zero_silent_witness :
    dpll_pr_multi_enum_str false [⟨7, [1, 0, 0, 0]⟩] 3 "mode-supported"
      dpll_mode_name = [] ∧
    pin_multi_slot [⟨7, [1, 0, 0, 0]⟩] 3 = none := by
  have h := multi_attr_zero_silent false [⟨7, [1, 0, 0, 0]⟩] 3 "mode-supported"
    dpll_mode_name (fun _ => []) (by decide)
  exact ⟨h.1, h.2.1⟩

/-! ## Signed-field wire decoding (C2) -/

/-- Little-endian assembly of a byte list into a natural number. -/
def bytesToNatLE (bs : List Nat) : Nat :=
  bs.foldr (fun b acc => b % 256 + 256 * acc) 0

/-- Two's-complement reading of a `w`-bit value. -/
def toSigned (w : Nat) (n : Nat) : Int :=
  if n % 2 ^ w < 2 ^ (w - 1) then ((n % 2 ^ w : Nat) : Int)
  else ((n % 2 ^ w : Nat) : Int) - 2 ^ w

/-- A 4-byte little-endian s32. -/
def s32OfBytes (bs : List Nat) : Int := toSigned 32 (bytesToNatLE (bs.take 4))

/-- An 8-byte little-endian s64. -/
def s64OfBytes (bs : List Nat) : Int := toSigned 64 (bytesToNatLE (bs.take 8))

/-- `mnl_attr_get_sint` from dpll.c: a 4-byte payload is copied as s32; ANY
other payload length falls into the `else` branch, which copies 8 bytes from
the payload buffer regardless of its length.  `junk` stands for the adjacent
memory bytes read past the end of a payload shorter than 8 bytes. -/
def mnl_attr_get_sint (payload junk : List Nat) : Int :=
  if payload.length = 4 then s32OfBytes payload
  else s64OfBytes (payload ++ junk)

/-- The parent-device `phase-offset` read in `dpll_pin_print_attrs`: the code
does `memcpy(&phase_offset, payload, sizeof(s64))` unconditionally, with no
length check at all. -/
def parent_device_phase_offset_get (payload junk : List Nat) : Int :=
  s64OfBytes (payload ++ junk)

/-- `DPLL_PR_SINT` for the pin's fractional-frequency-offset: the field is
rendered whenever the attribute-table slot is non-NULL, whatever the payload
length. -/
def dpll_pr_sint (name : String) (slot : Option NlAttr) (junk : List Nat) :
    List OutEv :=
  match slot with
  | none => []
  | some a =>
    [OutEv.text ("  " ++ name ++ ": " ++ toString (mnl_attr_get_sint a.payload junk))]

/-- The decode rule as the spec words it: a 4-byte wire payload is s32, an
8-byte payload is s64, any other length is a decode error and the field is
treated as absent. -/
def sint_decode_spec (payload : List Nat) : Option Int :=
  if payload.length = 4 then some (s32OfBytes payload)
  else if payload.length = 8 then some (s64OfBytes payload)
  else none

/-- C2 counterexample: for a 2-byte payload the spec rule says the field is
absent, but the code renders it anyway (reading past the payload); and for a
4-byte parent-device phase-offset the code reads 8 bytes, not the s32 value
the spec prescribes. -/
theorem sint_width_counterexample :
    sint_decode_spec [1, 2] = none ∧
    dpll_pr_sint "fractional-frequency-offset" (some ⟨24, [1, 2]⟩)
      [0, 0, 0, 0, 0, 0] ≠ [] ∧
    parent_device_phase_offset_get [5, 0, 0, 0] [0, 0, 0, 1] ≠ s32OfBytes [5, 0, 0, 0] := by
  refine ⟨by decide, by decide, by decide⟩

/-- C2 (amended): for the fractional-frequency-offset a 4-byte payload is
interpreted as s32 and a payload of ANY other length is interpreted as s64
(copying 8 bytes, past the end of a shorter payload); the parent-device
phase-offset is always read as s64 regardless of payload length; no payload
length makes the field absent — it is rendered whenever the attribute is
present. -/
theorem sint_width_behavior (payload junk : List Nat) :
    (payload.length = 4 → mnl_attr_get_sint payload junk = s32OfBytes payload) ∧
    (payload.length ≠ 4 → mnl_attr_get_sint payload junk = s64OfBytes (payload ++ junk)) ∧
    (∀ t name, dpll_pr_sint name (some ⟨t, payload⟩) junk ≠ []) ∧
    (∀ name, dpll_pr_sint name none junk = []) ∧
    (parent_device_phase_offset_get payload junk = s64OfBytes (payload ++ junk)) := by
  refine ⟨?_, ?_, ?_, ?_, rfl⟩
  · intro h; unfold mnl_attr_get_sint; simp [h]
  · intro h; unfold mnl_attr_get_sint; simp [h]
  · intro t name; unfold dpll_pr_sint; simp
  · intro name; rfl

/-- Witness for C2's amended theorem at a 4-byte payload. -/
theorem sint_width_behavior_witness :
    mnl_attr_get_sint [1, 2, 3, 4] [] = s32OfBytes [1, 2, 3, 4] :=
  (sint_width_behavior [1, 2, 3, 4] []).1 (by decide)

/-! ## Attribute ids used by the request builders (linux/dpll.h) -/

def DPLL_A_ID : Nat := 1
def DPLL_A_MODULE_NAME : Nat := 2
def DPLL_A_CLOCK_ID : Nat := 4
def DPLL_A_TYPE : Nat := 9
def DPLL_A_PHASE_OFFSET_MONITOR : Nat := 12
def DPLL_A_PHASE_OFFSET_AVG_FACTOR : Nat := 13

def DPLL_A_PIN_ID : Nat := 1
def DPLL_A_PIN_PARENT_ID : Nat := 2
def DPLL_A_PIN_MODULE_NAME : Nat := 3
def DPLL_A_PIN_CLOCK_ID : Nat := 5
def DPLL_A_PIN_BOARD_LABEL : Nat := 6
def DPLL_A_PIN_PANEL_LABEL : Nat := 7
def DPLL_A_PIN_PACKAGE_LABEL : Nat := 8
def DPLL_A_PIN_TYPE : Nat := 9
def DPLL_A_PIN_DIRECTION : Nat := 10
def DPLL_A_PIN_FREQUENCY : Nat := 11
def DPLL_A_PIN_PRIO : Nat := 15
def DPLL_A_PIN_STATE : Nat := 16
def DPLL_A_PIN_PARENT_DEVICE : Nat := 18
def DPLL_A_PIN_PARENT_PIN : Nat := 19
def DPLL_A_PIN_PHASE_ADJUST : Nat := 22
def DPLL_A_PIN_ESYNC_FREQUENCY : Nat := 25
def DPLL_A_PIN_REFERENCE_SYNC : Nat := 28

/-! ## Numeric-string parsers

The spec (section 1, out of scope) assumes `parse_uint(s, base) → value |
ParseError`; the concrete helpers `get_u32`/`get_u64`/`get_s32` live in
iproute2's lib/utils.c, outside this repository's sources. -/

/-- Value of one digit character under the given base. -/
def digitVal (base : Nat) (c : Char) : Option Nat :=
  let v :=
    if '0' ≤ c ∧ c ≤ '9' then some (c.toNat - '0'.toNat)
    else if 'a' ≤ c ∧ c ≤ 'f' then some (c.toNat - 'a'.toNat + 10)
    else if 'A' ≤ c ∧ c ≤ 'F' then some (c.toNat - 'A'.toNat + 10)
    else none
  match v with
  | some d => if d < base then some d else none
  | none => none

/-- A non-empty numeral in the given base. -/
def parseNumeral (base : Nat) (cs : List Char) : Option Nat :=
  match cs with
  | [] => none
  | _ =>
    cs.foldl
      (fun acc c =>
        match acc, digitVal base c with
        | some n, some d => some (n * base + d)
        | _, _ => none)
      (some 0)

/-- Modelled from the spec: the unsigned numeric-string parser `parse_uint`
assumed by the core (spec section 1); base 0 of `strtoul` resolves to hex for
a `0x` prefix and decimal otherwise (the octal case is irrelevant to every
claim). -/
def parse_uint (s : String) : Option Nat :=
  match s.toList with
  | '0' :: 'x' :: rest => parseNumeral 16 rest
  | '0' :: 'X' :: rest => parseNumeral 16 rest
  | cs => parseNumeral 10 cs

/-- Modelled from the spec: `get_u32` — `parse_uint` plus the 32-bit range
check. -/
def get_u32 (s : String) : Option Nat :=
  match parse_uint s with
  | some n => if n < 2 ^ 32 then some n else none
  | none => none

/-- Modelled from the spec: `get_u64` — `parse_uint` plus the 64-bit range
check. -/
def get_u64 (s : String) : Option Nat :=
  match parse_uint s with
  | some n => if n < 2 ^ 64 then some n else none
  | none => none

/-- Modelled from the spec: `get_s32` — the signed numeric parser with the
s32 range check. -/
def get_s32 (s : String) : Option Int :=
  match s.toList with
  | '-' :: rest =>
    match parseNumeral 10 rest with
    | some n => if (n : Int) ≤ 2 ^ 31 then some (-(n : Int)) else none
    | none => none
  | _ =>
    match parse_uint s with
    | some n => if n < 2 ^ 31 then some ((n : Int)) else none
    | none => none

/-- The 32-bit pattern `mnl_attr_put_u32` stores for an s32 value. -/
def u32OfS32 (v : Int) : Nat := (v % 2 ^ 32).toNat

/-! ## Requests and argument-loop errors -/

/-- One attribute appended to the outbound netlink request, in call order. -/
inductive ReqAttr where
  | u32 (attrId : Nat) (v : Nat)
  | u64 (attrId : Nat) (v : Nat)
  | str (attrId : Nat) (s : String)
  | nestStart (attrId : Nat)
  | nestEnd
deriving DecidableEq

/-- The error kinds surfaced by the argument loops: a keyword with no value
(`... requires an argument`), a value failing its type (`invalid ...`), an
unknown keyword (`unknown option`), and a required attribute missing after
the loop.  An error return aborts the verb before `mnlu_gen_socket_sndrcv`,
so no request is sent. -/
inductive DpllErr where
  | missingArgument (kw : String)
  | invalidArgument (kw : String) (val : String)
  | unknownOption (tok : String)
  | missingRequired (what : String)
deriving DecidableEq

/-! ## Argument loops (one per verb, from dpll.c) -/

/-- The argument loop of `cmd_device_show`: only `id U32` is accepted; the
accumulator is the parsed id (`has_id`/`id` in the source). -/
def cmd_device_show_loop (toks : List String) (acc : Option Nat) :
    Except DpllErr (Option Nat) :=
  match toks with
  | [] => Except.ok acc
  | tok :: rest =>
    if tok = "id" then
      match rest with
      | [] => Except.error (DpllErr.missingArgument "id")
      | v :: rest2 =>
        match get_u32 v with
        | none => Except.error (DpllErr.invalidArgument "id" v)
        | some n => cmd_device_show_loop rest2 (some n)
    else Except.error (DpllErr.unknownOption tok)

/-- The request shape chosen by a GET executor: whether the dump flag is set,
whether the output is wrapped in an array scope, and the unique-key attribute
put into a single-form request. -/
structure ShowPlan where
  dumpFlag : Bool
  arrayWrapped : Bool
  singleIdAttr : Option Nat
deriving DecidableEq

/-- `cmd_device_show` from dpll.c: parse arguments, then the single form
(`NLM_F_REQUEST|NLM_F_ACK`, id attribute, no array) when `has_id`, else the
dump form (`NLM_F_DUMP`, output wrapped in the `device` array). -/
def cmd_device_show (toks : List String) : Except DpllErr ShowPlan :=
  match cmd_device_show_loop toks none with
  | Except.error e => Except.error e
  | Except.ok (some n) => Except.ok ⟨false, false, some n⟩
  | Except.ok none => Except.ok ⟨true, true, none⟩

/-- The argument loop of `cmd_pin_show`: `id U32` and `device U32`; the
accumulators are the parsed pin id and device id. -/
def cmd_pin_show_loop (toks : List String) (pinId devId : Option Nat) :
    Except DpllErr (Option Nat × Option Nat) :=
  match toks with
  | [] => Except.ok (pinId, devId)
  | tok :: rest =>
    if tok = "id" then
      match rest with
      | [] => Except.error (DpllErr.missingArgument "id")
      | v :: rest2 =>
        match get_u32 v with
        | none => Except.error (DpllErr.invalidArgument "id" v)
        | some n => cmd_pin_show_loop rest2 (some n) devId
    else if tok = "device" then
      match rest with
      | [] => Except.error (DpllErr.missingArgument "device")
      | v :: rest2 =>
        match get_u32 v with
        | none => Except.error (DpllErr.invalidArgument "device" v)
        | some n => cmd_pin_show_loop rest2 pinId (some n)
    else Except.error (DpllErr.unknownOption tok)

/-- `cmd_pin_show` from dpll.c: the single form when a pin id was supplied,
otherwise the dump form (optionally device-filtered) wrapped in the `pin`
array. -/
def cmd_pin_show (toks : List String) : Except DpllErr ShowPlan :=
  match cmd_pin_show_loop toks none none with
  | Except.error e => Except.error e
  | Except.ok (some pid, _) => Except.ok ⟨false, false, some pid⟩
  | Except.ok (none, _) => Except.ok ⟨true, true, none⟩

/-- The argument loop of `cmd_device_set`: `id`, `phase-offset-monitor`
(true/1/false/0) and `phase-offset-avg-factor`. -/
def cmd_device_set_loop (toks : List String) (attrs : List ReqAttr)
    (hasId : Bool) : Except DpllErr (List ReqAttr × Bool) :=
  match toks with
  | [] => Except.ok (attrs, hasId)
  | tok :: rest =>
    if tok = "id" then
      match rest with
      | [] => Except.error (DpllErr.missingArgument "id")
      | v :: rest2 =>
        match get_u32 v with
        | none => Except.error (DpllErr.invalidArgument "id" v)
        | some n =>
          cmd_device_set_loop rest2 (attrs ++ [ReqAttr.u32 DPLL_A_ID n]) true
    else if tok = "phase-offset-monitor" then
      match rest with
      | [] => Except.error (DpllErr.missingArgument "phase-offset-monitor")
      | v :: rest2 =>
        if v = "true" ∨ v = "1" then
          cmd_device_set_loop rest2
            (attrs ++ [ReqAttr.u32 DPLL_A_PHASE_OFFSET_MONITOR 1]) hasId
        else if v = "false" ∨ v = "0" then
          cmd_device_set_loop rest2
            (attrs ++ [ReqAttr.u32 DPLL_A_PHASE_OFFSET_MONITOR 0]) hasId
        else Except.error (DpllErr.invalidArgument "phase-offset-monitor" v)
    else if tok = "phase-offset-avg-factor" then
      match rest with
      | [] => Except.error (DpllErr.missingArgument "phase-offset-avg-factor")
      | v :: rest2 =>
        match get_u32 v with
        | none => Except.error (DpllErr.invalidArgument "phase-offset-avg-factor" v)
        | some n =>
          cmd_device_set_loop rest2
            (attrs ++ [ReqAttr.u32 DPLL_A_PHASE_OFFSET_AVG_FACTOR n]) hasId
    else Except.error (DpllErr.unknownOption tok)

/-- `cmd_device_set` from dpll.c: the loop, then the required-id check. -/
def cmd_device_set (toks : List String) : Except DpllErr (List ReqAttr) :=
  match cmd_device_set_loop toks [] false with
  | Except.error e => Except.error e
  | Except.ok (attrs, hasId) =>
    if hasId then Except.ok attrs
    else Except.error (DpllErr.missingRequired "device id")

/-- The argument loop of `cmd_device_id_get`: `module-name STR`,
`clock-id U64`, `type {pps|eec}`. -/
def cmd_device_id_get_loop (toks : List String) (attrs : List ReqAttr) :
    Except DpllErr (List ReqAttr) :=
  match toks with
  | [] => Except.ok attrs
  | tok :: rest =>
    if tok = "module-name" then
      match rest with
      | [] => Except.error (DpllErr.missingArgument "module-name")
      | v :: rest2 =>
        cmd_device_id_get_loop rest2 (attrs ++ [ReqAttr.str DPLL_A_MODULE_NAME v])
    else if tok = "clock-id" then
      match rest with
      | [] => Except.error (DpllErr.missingArgument "clock-id")
      | v :: rest2 =>
        match get_u64 v with
        | none => Except.error (DpllErr.invalidArgument "clock-id" v)
        | some n =>
          cmd_device_id_get_loop rest2 (attrs ++ [ReqAttr.u64 DPLL_A_CLOCK_ID n])
    else if tok = "type" then
      match rest with
      | [] => Except.error (DpllErr.missingArgument "type")
      | v :: rest2 =>
        match dpll_parse_type v with
        | none => Except.error (DpllErr.invalidArgument "type" v)
        | some c =>
          cmd_device_id_get_loop rest2 (attrs ++ [ReqAttr.u32 DPLL_A_TYPE c])
    else Except.error (DpllErr.unknownOption tok)

/-- The argument loop of `cmd_pin_id_get`: five string attributes plus
`type` over the pin-type labels. -/
def cmd_pin_id_get_loop (toks : List String) (attrs : List ReqAttr) :
    Except DpllErr (List ReqAttr) :=
  match toks with
  | [] => Except.ok attrs
  | tok :: rest =>
    if tok = "module-name" then
      match rest with
      | [] => Except.error (DpllErr.missingArgument "module-name")
      | v :: rest2 =>
        cmd_pin_id_get_loop rest2 (attrs ++ [ReqAttr.str DPLL_A_PIN_MODULE_NAME v])
    else if tok = "clock-id" then
      match rest with
      | [] => Except.error (DpllErr.missingArgument "clock-id")
      | v :: rest2 =>
        match get_u64 v with
        | none => Except.error (DpllErr.invalidArgument "clock-id" v)
        | some n =>
          cmd_pin_id_get_loop rest2 (attrs ++ [ReqAttr.u64 DPLL_A_PIN_CLOCK_ID n])
    else if tok = "board-label" then
      match rest with
      | [] => Except.error (DpllErr.missingArgument "board-label")
      | v :: rest2 =>
        cmd_pin_id_get_loop rest2 (attrs ++ [ReqAttr.str DPLL_A_PIN_BOARD_LABEL v])
    else if tok = "panel-label" then
      match rest with
      | [] => Except.error (DpllErr.missingArgument "panel-label")
      | v :: rest2 =>
        cmd_pin_id_get_loop rest2 (attrs ++ [ReqAttr.str DPLL_A_PIN_PANEL_LABEL v])
    else if tok = "package-label" then
      match rest with
      | [] => Except.error (DpllErr.missingArgument "package-label")
      | v :: rest2 =>
        cmd_pin_id_get_loop rest2 (attrs ++ [ReqAttr.str DPLL_A_PIN_PACKAGE_LABEL v])
    else if tok = "type" then
      match rest with
      | [] => Except.error (DpllErr.missingArgument "type")
      | v :: rest2 =>
        match dpll_parse_pin_type v with
        | none => Except.error (DpllErr.invalidArgument "type" v)
        | some c =>
          cmd_pin_id_get_loop rest2 (attrs ++ [ReqAttr.u32 DPLL_A_PIN_TYPE c])
    else Except.error (DpllErr.unknownOption tok)

/-- The `parent-device` sub-loop of `cmd_pin_set`: `direction`, `prio` and
`state` are consumed with their values; any other head token breaks the loop
and is handed back (unconsumed) to the top-level loop. -/
def pin_set_parent_device_loop (toks : List String) (attrs : List ReqAttr) :
    Except DpllErr (List String × List ReqAttr) :=
  match toks with
  | [] => Except.ok ([], attrs)
  | tok :: rest =>
    if tok = "direction" then
      match rest with
      | [] => Except.error (DpllErr.missingArgument "direction")
      | v :: rest2 =>
        match dpll_parse_direction v with
        | none => Except.error (DpllErr.invalidArgument "direction" v)
        | some dir =>
          pin_set_parent_device_loop rest2
            (attrs ++ [ReqAttr.u32 DPLL_A_PIN_DIRECTION dir])
    else if tok = "prio" then
      match rest with
      | [] => Except.error (DpllErr.missingArgument "prio")
      | v :: rest2 =>
        match get_u32 v with
        | none => Except.error (DpllErr.invalidArgument "prio" v)
        | some p =>
          pin_set_parent_device_loop rest2 (attrs ++ [ReqAttr.u32 DPLL_A_PIN_PRIO p])
    else if tok = "state" then
      match rest with
      | [] => Except.error (DpllErr.missingArgument "state")
      | v :: rest2 =>
        match dpll_parse_state v with
        | none => Except.error (DpllErr.invalidArgument "state" v)
        | some st =>
          pin_set_parent_device_loop rest2 (attrs ++ [ReqAttr.u32 DPLL_A_PIN_STATE st])
    else Except.ok (tok :: rest, attrs)

theorem pin_set_parent_device_loop_length (toks : List String)
    (attrs : List ReqAttr) (rest' : List String) (attrs' : List ReqAttr)
    (h : pin_set_parent_device_loop toks attrs = Except.ok (rest', attrs')) :
    rest'.length ≤ toks.length := by
  induction toks, attrs using pin_set_parent_device_loop.induct generalizing rest' attrs' with
  | case1 attrs =>
    simp [pin_set_parent_device_loop] at h
    simp [h.1]
  | case2 attrs =>
    simp [pin_set_parent_device_loop] at h
  | case3 attrs v rest2 hx =>
    simp [pin_set_parent_device_loop, hx] at h
  | case4 attrs v rest2 n hx ih =>
    simp [pin_set_parent_device_loop, hx] at h
    have hle := ih rest' attrs' h
    simp [List.length_cons]
    omega
  | case5 attrs hne =>
    simp [pin_set_parent_device_loop] at h
  | case6 attrs v rest2 hx hne =>
    simp [pin_set_parent_device_loop, hx] at h
  | case7 attrs v rest2 n hx hne ih =>
    simp [pin_set_parent_device_loop, hx] at h
    have hle := ih rest' attrs' h
    simp [List.length_cons]
    omega
  | case8 attrs hne1 hne2 =>
    simp [pin_set_parent_device_loop] at h
  | case9 attrs v rest2 hx hne1 hne2 =>
    simp [pin_set_parent_device_loop, hx] at h
  | case10 attrs v rest2 n hx hne1 hne2 ih =>
    simp [pin_set_parent_device_loop, hx] at h
    have hle := ih rest' attrs' h
    simp [List.length_cons]
    omega
  | case11 attrs v rest2 hne1 hne2 hne3 =>
    rw [pin_set_parent_device_loop.eq_def] at h
    simp [hne1, hne2, hne3] at h
    obtain ⟨h1, h2⟩ := h
    simp [← h1]

/-- One iteration of the top-level argument loop of `cmd_pin_set`, for head
token `tok` and remaining tokens `rest`: `id`, `frequency`, `phase-adjust`,
`esync-frequency` with their values, the three nesting keywords
`parent-device`, `parent-pin`, `reference-sync` (which run their sub-parse
inline), and nothing else — any other token (including a top-level `state`,
`direction` or `prio`) is an unknown option.  `ok` carries the tokens left
for the next iteration, the attributes so far and the `has_id` flag. -/
def cmd_pin_set_step (tok : String) (rest : List String) (attrs : List ReqAttr)
    (hasId : Bool) : Except DpllErr (List String × List ReqAttr × Bool) :=
  if tok = "id" then
    match rest with
    | [] => Except.error (DpllErr.missingArgument "id")
    | v :: rest2 =>
      match get_u32 v with
      | none => Except.error (DpllErr.invalidArgument "id" v)
      | some n => Except.ok (rest2, attrs ++ [ReqAttr.u32 DPLL_A_PIN_ID n], true)
  else if tok = "frequency" then
    match rest with
    | [] => Except.error (DpllErr.missingArgument "frequency")
    | v :: rest2 =>
      match get_u64 v with
      | none => Except.error (DpllErr.invalidArgument "frequency" v)
      | some n =>
        Except.ok (rest2, attrs ++ [ReqAttr.u64 DPLL_A_PIN_FREQUENCY n], hasId)
  else if tok = "phase-adjust" then
    match rest with
    | [] => Except.error (DpllErr.missingArgument "phase-adjust")
    | v :: rest2 =>
      match get_s32 v with
      | none => Except.error (DpllErr.invalidArgument "phase-adjust" v)
      | some s =>
        Except.ok (rest2,
          attrs ++ [ReqAttr.u32 DPLL_A_PIN_PHASE_ADJUST (u32OfS32 s)], hasId)
  else if tok = "esync-frequency" then
    match rest with
    | [] => Except.error (DpllErr.missingArgument "esync-frequency")
    | v :: rest2 =>
      match get_u64 v with
      | none => Except.error (DpllErr.invalidArgument "esync-frequency" v)
      | some n =>
        Except.ok (rest2, attrs ++ [ReqAttr.u64 DPLL_A_PIN_ESYNC_FREQUENCY n], hasId)
  else if tok = "parent-device" then
    match rest with
    | [] => Except.error (DpllErr.missingArgument "parent-device")
    | v :: rest2 =>
      match get_u32 v with
      | none => Except.error (DpllErr.invalidArgument "parent-device" v)
      | some pid =>
        match pin_set_parent_device_loop rest2
            (attrs ++ [ReqAttr.nestStart DPLL_A_PIN_PARENT_DEVICE,
                       ReqAttr.u32 DPLL_A_PIN_PARENT_ID pid]) with
        | Except.error e => Except.error e
        | Except.ok (rest3, attrs2) =>
          Except.ok (rest3, attrs2 ++ [ReqAttr.nestEnd], hasId)
  else if tok = "parent-pin" then
    match rest with
    | [] => Except.error (DpllErr.missingArgument "parent-pin")
    | v :: rest2 =>
      match get_u32 v with
      | none => Except.error (DpllErr.invalidArgument "parent-pin" v)
      | some pid =>
        match rest2 with
        | "state" :: rest3 =>
          match rest3 with
          | [] => Except.error (DpllErr.missingArgument "state")
          | sv :: rest4 =>
            match dpll_parse_state sv with
            | none => Except.error (DpllErr.invalidArgument "state" sv)
            | some st =>
              Except.ok (rest4,
                attrs ++ [ReqAttr.nestStart DPLL_A_PIN_PARENT_PIN,
                          ReqAttr.u32 DPLL_A_PIN_PARENT_ID pid,
                          ReqAttr.u32 DPLL_A_PIN_STATE st, ReqAttr.nestEnd], hasId)
        | other =>
          Except.ok (other,
            attrs ++ [ReqAttr.nestStart DPLL_A_PIN_PARENT_PIN,
                      ReqAttr.u32 DPLL_A_PIN_PARENT_ID pid,
                      ReqAttr.nestEnd], hasId)
  else if tok = "reference-sync" then
    match rest with
    | [] => Except.error (DpllErr.missingArgument "reference-sync")
    | v :: rest2 =>
      match get_u32 v with
      | none => Except.error (DpllErr.invalidArgument "reference-sync" v)
      | some rid =>
        match rest2 with
        | "state" :: rest3 =>
          match rest3 with
          | [] => Except.error (DpllErr.missingArgument "state")
          | sv :: rest4 =>
            match dpll_parse_state sv with
            | none => Except.error (DpllErr.invalidArgument "state" sv)
            | some st =>
              Except.ok (rest4,
                attrs ++ [ReqAttr.nestStart DPLL_A_PIN_REFERENCE_SYNC,
                          ReqAttr.u32 DPLL_A_PIN_ID rid,
                          ReqAttr.u32 DPLL_A_PIN_STATE st, ReqAttr.nestEnd], hasId)
        | other =>
          Except.ok (other,
            attrs ++ [ReqAttr.nestStart DPLL_A_PIN_REFERENCE_SYNC,
                      ReqAttr.u32 DPLL_A_PIN_ID rid,
                      ReqAttr.nestEnd], hasId)
  else Except.error (DpllErr.unknownOption tok)

theorem cmd_pin_set_step_length (tok : String) (rest : List String)
    (attrs : List ReqAttr) (hasId : Bool) (rest2 : List String)
    (attrs2 : List ReqAttr) (hasId2 : Bool)
    (h : cmd_pin_set_step tok rest attrs hasId = Except.ok (rest2, attrs2, hasId2)) :
    rest2.length ≤ rest.length := by
  unfold cmd_pin_set_step at h
  repeat' split at h
  all_goals simp_all
  all_goals try omega
  all_goals
    rename_i heq
    have hle := pin_set_parent_device_loop_length _ _ _ _ heq
    omega

/-- The top-level argument loop of `cmd_pin_set`: run `cmd_pin_set_step` on
the head keyword until the tokens run out or a step fails. -/
def cmd_pin_set_loop (toks : List String) (attrs : List ReqAttr)
    (hasId : Bool) : Except DpllErr (List ReqAttr × Bool) :=
  match toks with
  | [] => Except.ok (attrs, hasId)
  | tok :: rest =>
    match hstep : cmd_pin_set_step tok rest attrs hasId with
    | Except.error e => Except.error e
    | Except.ok (rest2, attrs2, hasId2) => cmd_pin_set_loop rest2 attrs2 hasId2
termination_by toks.length
decreasing_by
  have hle := cmd_pin_set_step_length _ _ _ _ _ _ _ hstep
  simp [List.length_cons]
  omega

theorem cmd_pin_set_loop_nil (attrs : List ReqAttr) (hasId : Bool) :
    cmd_pin_set_loop [] attrs hasId = Except.ok (attrs, hasId) := by
  rw [cmd_pin_set_loop.eq_def]

theorem cmd_pin_set_loop_cons_error (tok : String) (rest : List String)
    (attrs : List ReqAttr) (hasId : Bool) (e : DpllErr)
    (h : cmd_pin_set_step tok rest attrs hasId = Except.error e) :
    cmd_pin_set_loop (tok :: rest) attrs hasId = Except.error e := by
  rw [cmd_pin_set_loop.eq_def]
  split
  · rename_i heq
    exact absurd heq (List.cons_ne_nil tok rest)
  · rename_i tok2 rest2' heq
    injection heq with htok hrest
    subst htok
    subst hrest
    split
    · rename_i e2 heq2
      rw [h] at heq2
      injection heq2 with h1
      rw [h1]
    · rename_i r3 a3 i3 heq2
      rw [h] at heq2
      exact Except.noConfusion heq2

theorem cmd_pin_set_loop_cons_ok (tok : String) (rest : List String)
    (attrs : List ReqAttr) (hasId : Bool) (rest2 : List String)
    (attrs2 : List ReqAttr) (hasId2 : Bool)
    (h : cmd_pin_set_step tok rest attrs hasId = Except.ok (rest2, attrs2, hasId2)) :
    cmd_pin_set_loop (tok :: rest) attrs hasId
      = cmd_pin_set_loop rest2 attrs2 hasId2 := by
  rw [cmd_pin_set_loop.eq_def]
  split
  · rename_i heq
    exact absurd heq (List.cons_ne_nil tok rest)
  · rename_i tok2 rest2' heq
    injection heq with htok hrest
    subst htok
    subst hrest
    split
    · rename_i e2 heq2
      rw [h] at heq2
      exact Except.noConfusion heq2
    · rename_i rest3 attrs3 hasId3 heq2
      rw [h] at heq2
      injection heq2 with h1
      simp at h1
      obtain ⟨ha, hb, hc⟩ := h1
      subst ha
      subst hb
      subst hc
      rfl

theorem cmd_pin_set_loop_cons (tok : String) (rest : List String)
    (attrs : List ReqAttr) (hasId : Bool) :
    cmd_pin_set_loop (tok :: rest) attrs hasId
      = match cmd_pin_set_step tok rest attrs hasId with
        | Except.error e => Except.error e
        | Except.ok (rest2, attrs2, hasId2) => cmd_pin_set_loop rest2 attrs2 hasId2 := by
  cases hs : cmd_pin_set_step tok rest attrs hasId with
  | error e =>
    rw [cmd_pin_set_loop_cons_error tok rest attrs hasId e hs]
  | ok t =>
    obtain ⟨r2, a2, i2⟩ := t
    rw [cmd_pin_set_loop_cons_ok tok rest attrs hasId r2 a2 i2 hs]

/-- `cmd_pin_set` from dpll.c: the loop, then the required-id check; only an
`ok` result reaches `mnlu_gen_socket_sndrcv`. -/
def cmd_pin_set (toks : List String) : Except DpllErr (List ReqAttr) :=
  match cmd_pin_set_loop toks [] false with
  | Except.error e => Except.error e
  | Except.ok (attrs, hasId) =>
    if hasId then Except.ok attrs
    else Except.error (DpllErr.missingRequired "pin id")

/-! ## C1: top-level keywords of `pin set` -/

/-- C1 counterexample: `pin set id 2 state connected` does not succeed with a
state attribute — the top-level loop of `cmd_pin_set` rejects `state` with an
unknown-option error. -/
theorem pin_set_toplevel_state_counterexample :
    cmd_pin_set ["id", "2", "state", "connected"]
      = Except.error (DpllErr.unknownOption "state") := by
  have h2 : get_u32 "2" = some 2 := by decide
  simp +decide [cmd_pin_set, cmd_pin_set_loop_cons,
    cmd_pin_set_loop_nil, cmd_pin_set_step, h2]

/-- C1 (amended): at top level the `pin set` loop accepts only `id`,
`frequency`, `phase-adjust` and `esync-frequency` with their values plus the
three nesting keywords; `state`, `direction` and `prio` are rejected at top
level with an unknown-option error (they are accepted only inside a nested
block, e.g. `parent-device`). -/
theorem pin_set_toplevel_keywords :
    (∀ rest attrs hasId, cmd_pin_set_loop ("state" :: rest) attrs hasId
        = Except.error (DpllErr.unknownOption "state")) ∧
    (∀ rest attrs hasId, cmd_pin_set_loop ("direction" :: rest) attrs hasId
        = Except.error (DpllErr.unknownOption "direction")) ∧
    (∀ rest attrs hasId, cmd_pin_set_loop ("prio" :: rest) attrs hasId
        = Except.error (DpllErr.unknownOption "prio")) ∧
    cmd_pin_set ["id", "2", "frequency", "10000000"]
      = Except.ok [ReqAttr.u32 DPLL_A_PIN_ID 2,
                   ReqAttr.u64 DPLL_A_PIN_FREQUENCY 10000000] ∧
    cmd_pin_set ["id", "2", "phase-adjust", "5"]
      = Except.ok [ReqAttr.u32 DPLL_A_PIN_ID 2,
                   ReqAttr.u32 DPLL_A_PIN_PHASE_ADJUST 5] ∧
    cmd_pin_set ["id", "2", "esync-frequency", "1000"]
      = Except.ok [ReqAttr.u32 DPLL_A_PIN_ID 2,
                   ReqAttr.u64 DPLL_A_PIN_ESYNC_FREQUENCY 1000] ∧
    cmd_pin_set ["id", "2", "parent-device", "3", "state", "connected"]
      = Except.ok [ReqAttr.u32 DPLL_A_PIN_ID 2,
                   ReqAttr.nestStart DPLL_A_PIN_PARENT_DEVICE,
                   ReqAttr.u32 DPLL_A_PIN_PARENT_ID 3,
                   ReqAttr.u32 DPLL_A_PIN_STATE DPLL_PIN_STATE_CONNECTED,
                   ReqAttr.nestEnd] := by
  have h2 : get_u32 "2" = some 2 := by decide
  have h3 : get_u32 "3" = some 3 := by decide
  have hf : get_u64 "10000000" = some 10000000 := by decide
  have hp : get_s32 "5" = some 5 := by decide
  have he : get_u64 "1000" = some 1000 := by decide
  have hu : u32OfS32 5 = 5 := by decide
  have hst : dpll_parse_state "connected" = some DPLL_PIN_STATE_CONNECTED := by decide
  refine ⟨?_, ?_, ?_, ?_, ?_, ?_, ?_⟩
  · intro rest attrs hasId
    rw [cmd_pin_set_loop.eq_def]
    simp +decide [cmd_pin_set_step]
  · intro rest attrs hasId
    rw [cmd_pin_set_loop.eq_def]
    simp +decide [cmd_pin_set_step]
  · intro rest attrs hasId
    rw [cmd_pin_set_loop.eq_def]
    simp +decide [cmd_pin_set_step]
  · simp +decide [cmd_pin_set, cmd_pin_set_loop_cons,
      cmd_pin_set_loop_nil, cmd_pin_set_step, h2, hf]
  · simp +decide [cmd_pin_set, cmd_pin_set_loop_cons,
      cmd_pin_set_loop_nil, cmd_pin_set_step, h2, hp, hu]
  · simp +decide [cmd_pin_set, cmd_pin_set_loop_cons,
      cmd_pin_set_loop_nil, cmd_pin_set_step, h2, he]
  · simp +decide [cmd_pin_set, cmd_pin_set_loop_cons,
      cmd_pin_set_loop_nil, cmd_pin_set_step, pin_set_parent_device_loop, h2, h3, hst]

/-! ## C7: a recognised keyword as the last remaining token -/

def deviceShowKeywords : List String := ["id"]
def deviceSetKeywords : List String :=
  ["id", "phase-offset-monitor", "phase-offset-avg-factor"]
def deviceIdGetKeywords : List String := ["module-name", "clock-id", "type"]
def pinShowKeywords : List String := ["id", "device"]
def pinIdGetKeywords : List String :=
  ["module-name", "clock-id", "board-label", "panel-label", "package-label", "type"]
def pinSetTopKeywords : List String :=
  ["id", "frequency", "phase-adjust", "esync-frequency",
   "parent-device", "parent-pin", "reference-sync"]
def pinSetParentDeviceKeywords : List String := ["direction", "prio", "state"]

/-- C7: in every verb's argument loop, a recognised keyword appearing as the
last remaining token (no value after it) fails with the MissingArgument
error for that keyword, whatever was parsed before (any accumulator state);
the loops return this error before the send, so no request goes out. -/
theorem trailing_keyword_missing_argument :
    (∀ k ∈ deviceShowKeywords, ∀ acc,
        cmd_device_show_loop [k] acc = Except.error (DpllErr.missingArgument k)) ∧
    (∀ k ∈ deviceSetKeywords, ∀ attrs hasId,
        cmd_device_set_loop [k] attrs hasId
          = Except.error (DpllErr.missingArgument k)) ∧
    (∀ k ∈ deviceIdGetKeywords, ∀ attrs,
        cmd_device_id_get_loop [k] attrs
          = Except.error (DpllErr.missingArgument k)) ∧
    (∀ k ∈ pinShowKeywords, ∀ pinId devId,
        cmd_pin_show_loop [k] pinId devId
          = Except.error (DpllErr.missingArgument k)) ∧
    (∀ k ∈ pinIdGetKeywords, ∀ attrs,
        cmd_pin_id_get_loop [k] attrs = Except.error (DpllErr.missingArgument k)) ∧
    (∀ k ∈ pinSetTopKeywords, ∀ attrs hasId,
        cmd_pin_set_loop [k] attrs hasId
          = Except.error (DpllErr.missingArgument k)) ∧
    (∀ k ∈ pinSetParentDeviceKeywords, ∀ attrs,
        pin_set_parent_device_loop [k] attrs
          = Except.error (DpllErr.missingArgument k)) := by
  refine ⟨?_, ?_, ?_, ?_, ?_, ?_, ?_⟩
  · intro k hk acc
    fin_cases hk <;> rfl
  · intro k hk attrs hasId
    fin_cases hk <;> rfl
  · intro k hk attrs
    fin_cases hk <;> rfl
  · intro k hk pinId devId
    fin_cases hk <;> rfl
  · intro k hk attrs
    fin_cases hk <;> rfl
  · intro k hk attrs hasId
    fin_cases hk <;> (rw [cmd_pin_set_loop.eq_def]; simp +decide [cmd_pin_set_step])
  · intro k hk attrs
    fin_cases hk <;> rfl

/-- Witness for C7: `pin set ... frequency` with nothing after it fails with
MissingArgument. -/
theorem trailing_keyword_missing_argument_witness :
    "frequency" ∈ pinSetTopKeywords ∧
    cmd_pin_set_loop ["frequency"] [] false
      = Except.error (DpllErr.missingArgument "frequency") := by
  refine ⟨by decide, ?_⟩
  exact trailing_keyword_missing_argument.2.2.2.2.2.1 "frequency" (by decide) [] false

/-! ## C8: single versus dump form of the GET executors -/

theorem cmd_device_show_loop_hasId (toks : List String) (acc : Option Nat)
    (r : Option Nat) (h : cmd_device_show_loop toks acc = Except.ok r) :
    r.isSome ↔ ("id" ∈ toks ∨ acc.isSome) := by
  induction toks, acc using cmd_device_show_loop.induct generalizing r with
  | case1 acc =>
    simp [cmd_device_show_loop] at h
    subst h
    simp
  | case2 acc =>
    simp [cmd_device_show_loop] at h
  | case3 acc v rest2 hx =>
    simp [cmd_device_show_loop, hx] at h
  | case4 acc v rest2 n hx ih =>
    simp [cmd_device_show_loop, hx] at h
    have hih := ih r h
    simp at hih
    simp [hih]
  | case5 acc tok rest hne =>
    rw [cmd_device_show_loop.eq_def] at h
    simp [hne] at h

theorem cmd_pin_show_loop_hasId (toks : List String) (pinId devId : Option Nat)
    (r : Option Nat × Option Nat)
    (h : cmd_pin_show_loop toks pinId devId = Except.ok r) :
    r.1.isSome ↔ ("id" ∈ toks ∨ pinId.isSome) := by
  induction toks, pinId, devId using cmd_pin_show_loop.induct generalizing r with
  | case1 pinId devId =>
    simp [cmd_pin_show_loop] at h
    subst h
    simp
  | case2 pinId devId =>
    simp [cmd_pin_show_loop] at h
  | case3 pinId devId v rest2 hx =>
    simp [cmd_pin_show_loop, hx] at h
  | case4 pinId devId v rest2 n hx ih =>
    simp [cmd_pin_show_loop, hx] at h
    have hih := ih r h
    simp at hih
    simp [hih]
  | case5 pinId devId hne =>
    simp [cmd_pin_show_loop] at h
  | case6 pinId devId v rest2 hx hne =>
    simp [cmd_pin_show_loop, hx] at h
  | case7 pinId devId v rest2 n hx hne ih =>
    simp [cmd_pin_show_loop, hx] at h
    have hv : ¬("id" = v) := by
      intro hveq
      rw [← hveq] at hx
      rw [show get_u32 "id" = none from by decide] at hx
      exact Option.noConfusion hx
    have hih := ih r h
    simp [List.mem_cons, hv] at hih ⊢
    exact hih
  | case8 pinId devId tok rest hne1 hne2 =>
    rw [cmd_pin_show_loop.eq_def] at h
    simp [hne1, hne2] at h

/-- C8: for the GET executors (`device show`, `pin show`), when the
unique-key `id` keyword is among the tokens the single-reply form is chosen
(no dump flag, no array wrapping, the id attribute in the request); when it
is not, the dump form is chosen and the rendered output is wrapped in an
array scope. -/
theorem show_single_vs_dump (toks : List String) (p : ShowPlan) :
    (cmd_device_show toks = Except.ok p →
      (("id" ∈ toks →
          p.dumpFlag = false ∧ p.arrayWrapped = false ∧ p.singleIdAttr.isSome) ∧
       ("id" ∉ toks →
          p.dumpFlag = true ∧ p.arrayWrapped = true ∧ p.singleIdAttr = none))) ∧
    (cmd_pin_show toks = Except.ok p →
      (("id" ∈ toks →
          p.dumpFlag = false ∧ p.arrayWrapped = false ∧ p.singleIdAttr.isSome) ∧
       ("id" ∉ toks →
          p.dumpFlag = true ∧ p.arrayWrapped = true ∧ p.singleIdAttr = none))) := by
  constructor
  · intro h
    unfold cmd_device_show at h
    cases hl : cmd_device_show_loop toks none with
    | error e => rw [hl] at h; exact Except.noConfusion h
    | ok r =>
      rw [hl] at h
      have hiff := cmd_device_show_loop_hasId toks none r hl
      simp at hiff
      cases r with
      | some n =>
        simp at h hiff
        refine ⟨fun _ => ?_, fun hnot => absurd hiff hnot⟩
        subst h
        exact ⟨rfl, rfl, rfl⟩
      | none =>
        simp at h hiff
        refine ⟨fun hcontra => absurd hcontra hiff, fun _ => ?_⟩
        subst h
        exact ⟨rfl, rfl, rfl⟩
  · intro h
    unfold cmd_pin_show at h
    cases hl : cmd_pin_show_loop toks none none with
    | error e => rw [hl] at h; exact Except.noConfusion h
    | ok r =>
      rw [hl] at h
      have hiff := cmd_pin_show_loop_hasId toks none none r hl
      simp at hiff
      obtain ⟨r1, r2⟩ := r
      cases r1 with
      | some n =>
        simp at h hiff
        refine ⟨fun _ => ?_, fun hnot => absurd hiff hnot⟩
        subst h
        exact ⟨rfl, rfl, rfl⟩
      | none =>
        simp at h hiff
        refine ⟨fun hcontra => absurd hcontra hiff, fun _ => ?_⟩
        subst h
        exact ⟨rfl, rfl, rfl⟩

/-- Witness for C8 at `device show id 5` (single form) and `device show`
(dump form). -/
theorem show_single_vs_dump_witness :
    ((⟨false, false, some 5⟩ : ShowPlan).dumpFlag = false ∧
     (⟨false, false, some 5⟩ : ShowPlan).singleIdAttr.isSome) ∧
    ((⟨true, true, none⟩ : ShowPlan).dumpFlag = true ∧
     (⟨true, true, none⟩ : ShowPlan).arrayWrapped = true) := by
  have h1 := ((show_single_vs_dump ["id", "5"] ⟨false, false, some 5⟩).1
    (by rfl)).1 (by decide)
  have h2 := ((show_single_vs_dump [] ⟨true, true, none⟩).1
    (by rfl)).2 (by decide)
  exact ⟨⟨h1.1, h1.2.2⟩, ⟨h2.1, h2.2.1⟩⟩

end Dpll
